import Mathlib

/-!
Verification development for the coredns `multicluster` plugin.

The Go sources are shallowly embedded:
* the DNS-name helpers from `miekg/dns` / coredns `dnsutil` that the plugin
  calls (`SplitDomainName`, `CountLabel`, `PrevLabel`, `TrimZone`) are
  translated for backslash-free (escape-free), ASCII domain names — the only
  names the plugin ever handles; byte indices coincide with character
  indices on such names;
* panicking Go code (indexing `s[0]` of an empty string, type assertions on
  nil interfaces) is modelled with `Option`: `none` means the Go code panics;
* Go's `(value, error)` returns are modelled as pairs with `Option` errors;
* the mutable controller state is modelled by explicit state records.
-/

namespace Multicluster

/-! ## String helpers (miekg/dns and coredns dnsutil, escape-free model) -/

/-- Drop one trailing `'.'` character, as `SplitDomainName`/`PrevLabel` do
for fully-qualified names. -/
def dropTrailingDot (cs : List Char) : List Char :=
  match cs.getLast? with
  | some '.' => cs.dropLast
  | _ => cs

/-- Split a character list on `'.'` separators; `splitOnDot [] = [[]]`,
matching Go `strings.Split("", ".") = [""]` behaviour on each fragment. -/
def splitOnDot (cs : List Char) : List (List Char) :=
  match cs with
  | [] => [[]]
  | c :: rest =>
    if c = '.' then [] :: splitOnDot rest
    else
      match splitOnDot rest with
      | [] => [[c]]
      | h :: t => (c :: h) :: t

/-- `dns.SplitDomainName` for escape-free names: `""` and `"."` give no
labels, otherwise a trailing dot is dropped and the rest is split on dots
(empty labels are kept, e.g. `"a..b"` gives `["a", "", "b"]`). -/
def splitDomainName (s : String) : List String :=
  if s = "" ∨ s = "." then []
  else (splitOnDot (dropTrailingDot s.data)).map String.mk

/-- `dns.CountLabel` for escape-free names: `"."` has zero labels, any other
name (including `""`) has one more label than it has non-final dots. -/
def countLabel (s : String) : Nat :=
  if s = "." then 0
  else 1 + ((dropTrailingDot s.data).filter (fun c => c = '.')).length

/-- The descending scan of `dns.PrevLabel`: `rcs` is the remainder of the
name reversed, `l` the index (in the original name) of its head, `n` the
number of label separators still to pass. Returns `(0, n > 1)` when the
scan runs off the left edge, and `(l+1, false)` when the `n`-th dot from
the right is found. -/
def prevLabelLoop : List Char → Nat → Nat → Nat × Bool
  | [], _, n => (0, decide (n > 1))
  | c :: rest, l, n =>
    if c = '.' then
      if n = 1 then (l + 1, false)
      else prevLabelLoop rest (l - 1) (n - 1)
    else prevLabelLoop rest (l - 1) n

/-- `dns.PrevLabel` for escape-free names: index of the label that comes
`n` labels from the right of `s` (ignoring a trailing dot). -/
def prevLabel (s : String) (n : Nat) : Nat × Bool :=
  match s.data with
  | [] => (0, true)
  | _ =>
    if n = 0 then (s.data.length, false)
    else
      let cs := dropTrailingDot s.data
      prevLabelLoop cs.reverse (cs.length - 1) n

/-- `dnsutil.TrimZone`: cut the zone's labels off the right of `q`;
`none` is the error return (the caller `parseRequest` then uses `""`). -/
def trimZone (q z : String) : Option String :=
  let zl := countLabel z
  let p := prevLabel q zl
  if p.2 ∨ p.1 = 0 then none
  else some (String.mk (q.data.take (p.1 - 1)))

/-- Go `strings.HasPrefix`. -/
def strHasPfx (s pre : String) : Bool :=
  pre.data.isPrefixOf s.data

/-- Go `strings.EqualFold`, restricted to the ASCII names the plugin
compares (simple per-character lower-casing). -/
def matchStr (a b : String) : Bool :=
  a.data.map Char.toLower == b.data.map Char.toLower

/-- Go `strings.Contains(s, c)` for a single-character needle. -/
def strContainsChar (s : String) (c : Char) : Bool :=
  s.data.contains c

/-- Go `strings.ReplaceAll(s, old, new)` for single-character old/new. -/
def replaceAllChar (s : String) (old new : Char) : String :=
  String.mk (s.data.map (fun c => if c = old then new else c))

/-- Go `strings.HasSuffix`. -/
def strHasSfx (s suf : String) : Bool :=
  suf.data.isSuffixOf s.data

/-! ## The name parser (`parse.go`) -/

/-- `Svc`: the DNS schema constant `"svc"`. -/
def Svc : String := "svc"

/-- `Pod`: the DNS schema constant `"pod"`. -/
def Pod : String := "pod"

/-- The plugin's three lookup error values (`errNoItems`,
`errNsNotExposed`, `errInvalidRequest`). -/
inductive LookupErr where
  | noItems
  | nsNotExposed
  | invalidRequest
deriving DecidableEq, Repr

/-- `recordRequest` from `parse.go`; `nspace` stands for the Go field
`namespace` (a Lean keyword). All fields default to the Go zero value. -/
structure recordRequest where
  port : String := ""
  protocol : String := ""
  cluster : String := ""
  endpoint : String := ""
  service : String := ""
  nspace : String := ""
  podOrSvc : String := ""
deriving DecidableEq, Repr

/-- `stripUnderscore` from `parse.go`. The Go code indexes `s[0]`
unconditionally, so it panics on the empty string: that is the `none`
case. -/
def stripUnderscore (s : String) : Option String :=
  match s.data with
  | [] => none
  | c :: rest => if c ≠ '_' then some s else some (String.mk rest)

/-- The part of `parseRequest` that walks the labels right-to-left after
zone trimming and splitting. `none` models a Go panic (an empty label in a
`stripUnderscore` position); otherwise the pair is the Go `(r, err)`
return. -/
def parseSegs (segs : List String) : Option (recordRequest × Option LookupErr) :=
  match segs.reverse with
  | [] => some ({ port := "*", protocol := "*" }, none)
  | pos :: rest =>
    let r0 : recordRequest := { port := "*", protocol := "*", podOrSvc := pos }
    if pos ≠ Pod ∧ pos ≠ Svc then some (r0, some .invalidRequest)
    else
      match rest with
      | [] => some (r0, none)
      | ns :: rest2 =>
        let r1 : recordRequest := { r0 with nspace := ns }
        match rest2 with
        | [] => some (r1, none)
        | svcName :: rest3 =>
          let r2 : recordRequest := { r1 with service := svcName }
          match rest3 with
          | [] => some (r2, none)
          | [b, a] =>
            -- exactly two leftover labels: `a` is `segs[last-1]`, `b` is
            -- `segs[last]`, the rightmost of the two
            if strHasPfx b "_" then
              match stripUnderscore a, stripUnderscore b with
              | some p, some pr => some ({ r2 with port := p, protocol := pr }, none)
              | _, _ => none
            else
              match stripUnderscore a, stripUnderscore b with
              | some e, some c => some ({ r2 with endpoint := e, cluster := c }, none)
              | _, _ => none
          | _ => some (r2, some .invalidRequest)

/-- `parseRequest` from `parse.go`: trim the zone, handle apex queries,
then split the remaining labels. `none` models a Go panic. -/
def parseRequest (name zone : String) : Option (recordRequest × Option LookupErr) :=
  let base := (trimZone name zone).getD ""
  if base = "" ∨ base = Svc ∨ base = Pod then some ({}, none)
  else parseSegs (splitDomainName base)

/-! ## Data model (`object/service.go`, `object/endpoint.go`,
coredns `msg.Service`, mcs-api types) -/

/-- `mcs.ServicePort` (the fields the plugin reads). -/
structure ServicePort where
  name : String := ""
  protocol : String := ""
  port : Int := 0
deriving DecidableEq, Repr

/-- `mcs.ServiceImportType`. -/
inductive ServiceImportType where
  | ClusterSetIP
  | Headless
deriving DecidableEq, Repr

/-- `object.ServiceImport`; `nspace` stands for the Go field `Namespace`. -/
structure ServiceImport where
  version : String := ""
  name : String := ""
  nspace : String := ""
  index : String := ""
  clusterIPs : List String := []
  svcType : ServiceImportType := .ClusterSetIP
  ports : List ServicePort := []
deriving DecidableEq, Repr

/-- `k8sObject.EndpointAddress` (the fields the plugin reads; `nodeName`
is carried but never compared by the equivalence check). -/
structure EndpointAddress where
  ip : String := ""
  hostname : String := ""
  nodeName : String := ""
deriving DecidableEq, Repr

/-- `k8sObject.EndpointPort`. -/
structure EndpointPort where
  name : String := ""
  port : Int := 0
  protocol : String := ""
deriving DecidableEq, Repr

/-- `k8sObject.EndpointSubset`. -/
structure EndpointSubset where
  addresses : List EndpointAddress := []
  ports : List EndpointPort := []
deriving DecidableEq, Repr

/-- `object.Endpoints`: the embedded `k8sObject.Endpoints` fields the
plugin reads plus the multicluster `ClusterId`. -/
structure Endpoints where
  version : String := ""
  name : String := ""
  nspace : String := ""
  index : String := ""
  subsets : List EndpointSubset := []
  clusterId : String := ""
deriving DecidableEq, Repr

/-- `msg.Service` (the fields the plugin writes). -/
structure MsgService where
  host : String := ""
  port : Int := 0
  ttl : Nat := 0
  key : String := ""
deriving DecidableEq, Repr

/-- `object.ServiceKey`. -/
def serviceKey (name nspace : String) : String := name ++ "." ++ nspace

/-- `object.EndpointsKey`. -/
def endpointsKey (name nspace : String) : String := name ++ "." ++ nspace

/-- `defaultTTL`. -/
def defaultTTL : Nat := 5

/-- The fake key prefix constant `coredns = "c"`. -/
def corednsPfxConst : String := "c"

/-- `msg.Path(s, prefix)`: `"/" ++ prefix` followed by the zone's labels
reversed, `/`-separated (the `path.Join` cleaning is a no-op for the
well-formed zones the plugin uses). -/
def msgPath (s pre : String) : String :=
  let l := (splitDomainName s).reverse
  "/" ++ pre ++ String.join (l.map (fun x => "/" ++ x))

/-! ## The resolver (`multicluster.go`) -/

/-- `match` from `multicluster.go`: `strings.EqualFold`. -/
def matchFold (a b : String) : Bool := matchStr a b

/-- `matchPortAndProtocol` from `multicluster.go`: the `a` inputs are wild
only when they are the empty string. -/
def matchPortAndProtocol (aPort bPort aProtocol bProtocol : String) : Bool :=
  (matchFold aPort bPort || aPort == "") && (matchFold aProtocol bProtocol || aProtocol == "")

/-- `endpointHostname` from `multicluster.go`. -/
def endpointHostname (addr : EndpointAddress) : String :=
  if addr.hostname ≠ "" then addr.hostname
  else if strContainsChar addr.ip '.' then replaceAllChar addr.ip '.' '-'
  else if strContainsChar addr.ip ':' then replaceAllChar addr.ip ':' '-'
  else ""

/-- The plugin's read-only view of the controller caches plus the
configured TTL: `SvcIndex`, `EpIndex`, and the set of namespaces for which
`GetNamespaceByName` succeeds. -/
structure MC where
  svcIndexF : String → List ServiceImport
  epIndexF : String → List Endpoints
  namespaces : List String
  ttl : Nat

/-- `namespaceExists` from `multicluster.go`. -/
def namespaceExists (m : MC) (nspace : String) : Bool :=
  m.namespaces.contains nspace

/-- The `for _, p := range eps.Ports` loop of the Headless branch of
`findServices`, for one address: emit a record per matching port and clear
the running error. The boolean in the state is `err == nil`. -/
def addrPortsLoop (r : recordRequest) (ttl : Nat) (zonePath : String)
    (svc : ServiceImport) (clusterId : String) (addr : EndpointAddress) :
    List EndpointPort → List MsgService × Bool → List MsgService × Bool
  | [], st => st
  | p :: rest, (svcs, errNil) =>
    if matchPortAndProtocol r.port p.name r.protocol p.protocol then
      let s : MsgService :=
        { host := addr.ip, port := p.port, ttl := ttl,
          key := String.intercalate "/"
            [zonePath, Svc, svc.nspace, svc.name, clusterId, endpointHostname addr] }
      addrPortsLoop r ttl zonePath svc clusterId addr rest (svcs ++ [s], true)
    else addrPortsLoop r ttl zonePath svc clusterId addr rest (svcs, errNil)

/-- The `for _, addr := range eps.Addresses` loop of `findServices`:
addresses failing the endpoint/cluster match are skipped. -/
def addrsLoop (r : recordRequest) (ttl : Nat) (zonePath : String)
    (svc : ServiceImport) (clusterId : String) (epsPorts : List EndpointPort) :
    List EndpointAddress → List MsgService × Bool → List MsgService × Bool
  | [], st => st
  | addr :: rest, st =>
    if r.endpoint ≠ "" ∧
        (¬ matchFold r.cluster clusterId ∨ ¬ matchFold r.endpoint (endpointHostname addr)) then
      addrsLoop r ttl zonePath svc clusterId epsPorts rest st
    else
      addrsLoop r ttl zonePath svc clusterId epsPorts rest
        (addrPortsLoop r ttl zonePath svc clusterId addr epsPorts st)

/-- The `for _, eps := range ep.Subsets` loop of `findServices`. -/
def subsetsLoop (r : recordRequest) (ttl : Nat) (zonePath : String)
    (svc : ServiceImport) (clusterId : String) :
    List EndpointSubset → List MsgService × Bool → List MsgService × Bool
  | [], st => st
  | eps :: rest, st =>
    subsetsLoop r ttl zonePath svc clusterId rest
      (addrsLoop r ttl zonePath svc clusterId eps.ports eps.addresses st)

/-- The `for _, ep := range endpointsList` loop of `findServices`:
endpoint records whose index is not the service's key are skipped. -/
def epLoop (r : recordRequest) (ttl : Nat) (zonePath : String)
    (svc : ServiceImport) :
    List Endpoints → List MsgService × Bool → List MsgService × Bool
  | [], st => st
  | ep :: rest, st =>
    if endpointsKey svc.name svc.nspace ≠ ep.index then
      epLoop r ttl zonePath svc rest st
    else
      epLoop r ttl zonePath svc rest
        (subsetsLoop r ttl zonePath svc ep.clusterId ep.subsets st)

/-- One matching port of the ClusterSetIP branch of `findServices`: one
record per cluster IP. -/
def svcIPRecords (ttl : Nat) (key : String) (p : ServicePort)
    (ips : List String) : List MsgService :=
  ips.map (fun ip => { host := ip, port := p.port, ttl := ttl, key := key })

/-- The `for _, p := range svc.Ports` loop of the ClusterSetIP branch of
`findServices`: the running error is cleared as soon as a port passes the
filter, before any cluster IP is looked at. -/
def portsLoop (r : recordRequest) (ttl : Nat) (key : String)
    (ips : List String) :
    List ServicePort → List MsgService × Bool → List MsgService × Bool
  | [], st => st
  | p :: rest, (svcs, errNil) =>
    if matchPortAndProtocol r.port p.name r.protocol p.protocol then
      portsLoop r ttl key ips rest (svcs ++ svcIPRecords ttl key p ips, true)
    else portsLoop r ttl key ips rest (svcs, errNil)

/-- The `for _, svc := range serviceList` loop of `findServices`. The Go
code fetches the endpoint list lazily and memoizes it; since `EpIndex` is
read-only here, passing the already-fetched `epl` is equivalent. -/
def serviceLoop (r : recordRequest) (ttl : Nat) (zonePath : String)
    (epl : List Endpoints) :
    List ServiceImport → List MsgService × Bool → List MsgService × Bool
  | [], st => st
  | svc :: rest, st =>
    if ¬ (matchFold r.nspace svc.nspace ∧ matchFold r.service svc.name) then
      serviceLoop r ttl zonePath epl rest st
    else if svc.svcType = .Headless ∨ r.endpoint ≠ "" then
      serviceLoop r ttl zonePath epl rest (epLoop r ttl zonePath svc epl st)
    else
      serviceLoop r ttl zonePath epl rest
        (portsLoop r ttl
          (String.intercalate "/" [zonePath, Svc, svc.nspace, svc.name])
          svc.clusterIPs svc.ports st)

/-- `findServices` from `multicluster.go`. The second component is the
returned error: `none` corresponds to a nil Go error. -/
def findServices (m : MC) (r : recordRequest) (zone : String) :
    List MsgService × Option LookupErr :=
  if ¬ namespaceExists m r.nspace then ([], some .noItems)
  else if r.service = "" then
    if namespaceExists m r.nspace then ([], none) else ([], some .noItems)
  else
    let idx := serviceKey r.service r.nspace
    let serviceList := m.svcIndexF idx
    let epl := m.epIndexF idx
    let zonePath := msgPath zone corednsPfxConst
    let st := serviceLoop r m.ttl zonePath epl serviceList ([], false)
    (st.1, if st.2 then none else some .noItems)

/-- `dnsutil.IsReverse`. -/
def isReverse (name : String) : Nat :=
  if strHasSfx name ".in-addr.arpa." then 1
  else if strHasSfx name ".ip6.arpa." then 2
  else 0

/-- `Records` from `multicluster.go`: parse, apex shortcut, reverse-name
check, namespace exposure check, then `findServices`. `none` models a Go
panic inside `parseRequest`. -/
def records (m : MC) (name zone : String) :
    Option (List MsgService × Option LookupErr) :=
  match parseRequest name zone with
  | none => none
  | some (_, some e) => some ([], some e)
  | some (r, none) =>
    if r.podOrSvc = "" then some ([], none)
    else if isReverse name > 0 then some ([], some .noItems)
    else if ¬ namespaceExists m r.nspace then some ([], some .nsNotExposed)
    else some (findServices m r zone)

/-! ## Response assembly (`ServeDNS` / `IsNameError`, `multicluster.go`
lines 165-190) -/

/-- A Go `error` value reaching the tail of `ServeDNS`: one of the three
plugin sentinel errors, or any other error. -/
inductive GoErr where
  | lookup (e : LookupErr)
  | other (msg : String)
deriving DecidableEq, Repr

/-- `IsNameError` from `multicluster.go`: pointer-equality against the
three sentinel errors (`nil` is none of them). -/
def isNameError (err : Option GoErr) : Bool :=
  err == some (.lookup .noItems) ||
  err == some (.lookup .nsNotExposed) ||
  err == some (.lookup .invalidRequest)

/-- The possible outcomes of the tail of `ServeDNS`. -/
inductive DNSAction where
  | nextHandler
  | backendError (rcode : Nat)
  | servfailWithErr
  | writeAnswer
deriving DecidableEq, Repr

/-- `dns.RcodeSuccess`. -/
def rcodeSuccess : Nat := 0
/-- `dns.RcodeServerFailure`. -/
def rcodeServerFailure : Nat := 2
/-- `dns.RcodeNameError` (NXDOMAIN). -/
def rcodeNameError : Nat := 3

/-- The error-dispatch tail of `ServeDNS` (`multicluster.go` 165-190),
over the resolver's error, the fallthrough decision `m.Fall.Through(name)`,
the cache's `HasSynced()`, and whether any records were produced. -/
def serveDNSRespond (err : Option GoErr) (fallMatch hasSyncedB recordsEmpty : Bool) :
    DNSAction :=
  if isNameError err then
    if fallMatch then .nextHandler
    else if ¬ hasSyncedB then .backendError rcodeServerFailure
    else .backendError rcodeNameError
  else
    match err with
    | some _ => .servfailWithErr
    | none =>
      if recordsEmpty then .backendError rcodeSuccess
      else .writeAnswer

/-! ## The controller (`controller.go`, i.e. `src/unnamed/part_002`) -/

/-- The synchronization-relevant state of `control`: whether each watch
loop's informer has finished its initial list (`cache.Controller.HasSynced`),
and whether the endpoint watch was enabled at all
(`opts.initEndpointsCache`; `epController` stays nil otherwise). -/
structure ControlState where
  svcImportSynced : Bool
  nsSynced : Bool
  epEnabled : Bool
  epSynced : Bool
deriving DecidableEq, Repr

/-- `HasSynced` from `controller.go`: it consults only the service-import
and namespace informers. -/
def hasSynced (c : ControlState) : Bool :=
  c.svcImportSynced && c.nsSynced

/-- The synchronization predicate described by the spec's words ("true
only once all enabled loops have completed their initial full
enumeration"), stated for comparison with the code's `hasSynced`: the
endpoint loop counts whenever it is enabled. -/
def specHasSynced (c : ControlState) : Bool :=
  c.svcImportSynced && c.nsSynced && (!c.epEnabled || c.epSynced)

/-- The stop-guard state of `control` (`shutdown` flag and the shared
`stopCh` channel). The mutex is elided: calls are modelled sequentially. -/
structure StopState where
  shutdown : Bool
  stopChClosed : Bool
deriving DecidableEq, Repr

/-- `Stop` from `controller.go`: close the channel and set `shutdown` on
the first call, report "shutdown already in progress" afterwards. -/
def stop (c : StopState) : StopState × Option String :=
  if ¬ c.shutdown then ({ shutdown := true, stopChClosed := true }, none)
  else (c, some "shutdown already in progress")

/-- The `for port, aport := range sa.Ports` loop of `subsetsEquivalent`.
Go indexes `sb.Ports[port]`; the length check before the loop guarantees
the second list is long enough (the `false` on exhaustion is unreachable
there). -/
def portsAllEqual : List EndpointPort → List EndpointPort → Bool
  | [], _ => true
  | _ :: _, [] => false
  | a :: ra, b :: rb =>
    a.name == b.name && a.port == b.port && a.protocol == b.protocol &&
    portsAllEqual ra rb

/-- The `for addr, aaddr := range sa.Addresses` loop of
`subsetsEquivalent`: only IP and Hostname are compared. -/
def addrsAllEqual : List EndpointAddress → List EndpointAddress → Bool
  | [], _ => true
  | _ :: _, [] => false
  | a :: ra, b :: rb =>
    a.ip == b.ip && a.hostname == b.hostname && addrsAllEqual ra rb

/-- `subsetsEquivalent` from `controller.go`. -/
def subsetsEquivalent (sa sb : EndpointSubset) : Bool :=
  sa.addresses.length == sb.addresses.length &&
  sa.ports.length == sb.ports.length &&
  addrsAllEqual sa.addresses sb.addresses &&
  portsAllEqual sa.ports sb.ports

/-- The `for i, sa := range a.Subsets` loop of `endpointsEquivalent`. -/
def subsetsAllEquivalent : List EndpointSubset → List EndpointSubset → Bool
  | [], _ => true
  | _ :: _, [] => false
  | sa :: ra, sb :: rb => subsetsEquivalent sa sb && subsetsAllEquivalent ra rb

/-- `endpointsEquivalent` from `controller.go` (nil pointers are never
equivalent). -/
def endpointsEquivalent (a b : Option Endpoints) : Bool :=
  match a, b with
  | some a, some b =>
    a.subsets.length == b.subsets.length &&
    a.clusterId == b.clusterId &&
    subsetsAllEquivalent a.subsets b.subsets
  | _, _ => false

/-- An object handed to the update handler: the two record types the
controller produces. -/
inductive WatchObj where
  | svcImport (s : ServiceImport)
  | endpoints (e : Endpoints)
deriving DecidableEq, Repr

/-- `GetResourceVersion` on a watch object. -/
def getResourceVersion : WatchObj → String
  | .svcImport s => s.version
  | .endpoints e => e.version

/-- `detectChanges` from `controller.go`. The result is
`some advanced?`, where `advanced?` says whether `updateModified` was
called; `none` models the panic of the `oldObj.(*object.Endpoints)` /
`newObj.(*object.Endpoints)` type assertions on a nil or mismatched
object. -/
def detectChanges (oldObj newObj : Option WatchObj) : Option Bool :=
  match oldObj, newObj with
  | some o, some n =>
    if getResourceVersion o = getResourceVersion n then some false
    else
      match n with
      | .svcImport _ => some true
      | .endpoints ne =>
        match o with
        | .endpoints oe => some (!endpointsEquivalent (some oe) (some ne))
        | _ => none
  | none, some n =>
    match n with
    | .svcImport _ => some true
    | .endpoints _ => none
  | some o, none =>
    match o with
    | .svcImport _ => some true
    | .endpoints _ => none
  | none, none => some false

/-! ## Claim-side comparison definitions

These restate, in the claims' own vocabulary (positionwise `zip`/`all`
instead of the code's index loops, a single replacement pass instead of
the code's branching), the behaviours the claims assert; the theorems
below compare them with the code translations. -/

/-- The endpoint hostname the claim describes: the explicit hostname when
non-empty, otherwise the IP with every `'.'` or `':'` replaced by
`'-'`. -/
def claimedEndpointHostname (addr : EndpointAddress) : String :=
  if addr.hostname ≠ "" then addr.hostname
  else String.mk (addr.ip.data.map (fun c => if c = '.' ∨ c = ':' then '-' else c))

/-- The claim's address equivalence: equal IP and hostname. -/
def claimAddrEq (x y : EndpointAddress) : Bool :=
  x.ip == y.ip && x.hostname == y.hostname

/-- The claim's port equivalence: equal name, port number and protocol. -/
def claimPortEq (x y : EndpointPort) : Bool :=
  x.name == y.name && x.port == y.port && x.protocol == y.protocol

/-- The claim's subset equivalence: equal address and port counts with
positionwise-equivalent addresses and ports. -/
def claimSubsetEq (x y : EndpointSubset) : Bool :=
  x.addresses.length == y.addresses.length &&
  x.ports.length == y.ports.length &&
  ((x.addresses.zip y.addresses).all fun q => claimAddrEq q.1 q.2) &&
  ((x.ports.zip y.ports).all fun q => claimPortEq q.1 q.2)

/-- The claim's endpoint-record equivalence: identical cluster id,
identical subset count, positionwise-equivalent subsets. -/
def claimEndpointsEquiv (a b : Endpoints) : Bool :=
  a.clusterId == b.clusterId &&
  a.subsets.length == b.subsets.length &&
  ((a.subsets.zip b.subsets).all fun q => claimSubsetEq q.1 q.2)

/-! ## Helper lemmas -/

lemma strMk_data (x : String) : String.mk x.data = x := by cases x; rfl

lemma strHasPfx_underscore (x : String) : strHasPfx ("_" ++ x) "_" = true := by
  simp [strHasPfx]

lemma stripUnderscore_underscore (x : String) : stripUnderscore ("_" ++ x) = some x := by
  show stripUnderscore ⟨'_' :: x.data⟩ = some x
  simp [stripUnderscore, strMk_data]

lemma splitDomainName_ne_five (b : String) (v w x y z : String)
    (h : splitDomainName b = [v, w, x, y, z]) :
    ¬ (b = "" ∨ b = Svc ∨ b = Pod) := by
  rintro (rfl | rfl | rfl)
  · rw [show splitDomainName "" = [] from rfl] at h
    exact List.noConfusion h
  · rw [show splitDomainName Svc = [Svc] from rfl] at h
    simp at h
  · rw [show splitDomainName Pod = [Pod] from rfl] at h
    simp at h

lemma portsLoop_nil_ips (r : recordRequest) (ttl : Nat) (key : String) :
    ∀ (ports : List ServicePort) (st : List MsgService × Bool),
      portsLoop r ttl key [] ports st =
        (st.1, st.2 || ports.any fun p => matchPortAndProtocol r.port p.name r.protocol p.protocol) := by
  intro ports
  induction ports with
  | nil => intro st; simp [portsLoop]
  | cons p rest ih =>
    intro st
    rcases st with ⟨svcs, errNil⟩
    by_cases h : matchPortAndProtocol r.port p.name r.protocol p.protocol
    · simp [portsLoop, h, svcIPRecords, ih]
    · simp [portsLoop, h, ih]

lemma addrsAllEqual_eq_zip :
    ∀ (a b : List EndpointAddress), a.length = b.length →
      addrsAllEqual a b = ((a.zip b).all fun q => claimAddrEq q.1 q.2) := by
  intro a
  induction a with
  | nil =>
    intro b h
    cases b with
    | nil => simp [addrsAllEqual]
    | cons y rb => simp at h
  | cons x ra ih =>
    intro b h
    cases b with
    | nil => simp at h
    | cons y rb =>
      simp only [List.length_cons, Nat.succ.injEq] at h
      simp [addrsAllEqual, claimAddrEq, ih _ h, Bool.and_assoc]

lemma portsAllEqual_eq_zip :
    ∀ (a b : List EndpointPort), a.length = b.length →
      portsAllEqual a b = ((a.zip b).all fun q => claimPortEq q.1 q.2) := by
  intro a
  induction a with
  | nil =>
    intro b h
    cases b with
    | nil => simp [portsAllEqual]
    | cons y rb => simp at h
  | cons x ra ih =>
    intro b h
    cases b with
    | nil => simp at h
    | cons y rb =>
      simp only [List.length_cons, Nat.succ.injEq] at h
      simp [portsAllEqual, claimPortEq, ih _ h, Bool.and_assoc]

lemma subsetsEquivalent_eq_claim (sa sb : EndpointSubset) :
    subsetsEquivalent sa sb = claimSubsetEq sa sb := by
  unfold subsetsEquivalent claimSubsetEq
  cases hA : (sa.addresses.length == sb.addresses.length) with
  | false => simp [hA]
  | true =>
    cases hP : (sa.ports.length == sb.ports.length) with
    | false => simp [hP]
    | true =>
      have hA' : sa.addresses.length = sb.addresses.length := eq_of_beq hA
      have hP' : sa.ports.length = sb.ports.length := eq_of_beq hP
      simp [hA, hP, addrsAllEqual_eq_zip _ _ hA', portsAllEqual_eq_zip _ _ hP']

lemma subsetsAllEquivalent_eq_zip :
    ∀ (a b : List EndpointSubset), a.length = b.length →
      subsetsAllEquivalent a b = ((a.zip b).all fun q => claimSubsetEq q.1 q.2) := by
  intro a
  induction a with
  | nil =>
    intro b h
    cases b with
    | nil => simp [subsetsAllEquivalent]
    | cons y rb => simp at h
  | cons x ra ih =>
    intro b h
    cases b with
    | nil => simp at h
    | cons y rb =>
      simp only [List.length_cons, Nat.succ.injEq] at h
      simp [subsetsAllEquivalent, subsetsEquivalent_eq_claim, ih _ h]

lemma endpointsEquivalent_eq_claim (o n : Endpoints) :
    endpointsEquivalent (some o) (some n) = claimEndpointsEquiv o n := by
  unfold endpointsEquivalent claimEndpointsEquiv
  cases hL : (o.subsets.length == n.subsets.length) with
  | false => simp [hL]
  | true =>
    have hL' : o.subsets.length = n.subsets.length := eq_of_beq hL
    cases hC : (o.clusterId == n.clusterId) with
    | false => simp [hL, hC]
    | true => simp [hL, hC, subsetsAllEquivalent_eq_zip _ _ hL']

lemma not_mem_of_contains_false {c : Char} {l : List Char}
    (h : l.contains c = false) : ∀ x ∈ l, x ≠ c := by
  intro x hx he
  subst he
  simp at h
  exact h hx

/-! ## Concrete instances used by the claim theorems -/

/-- The service import of claim C1's scenario: `svc1` in `testns`,
ClusterSetIP `10.0.0.1`, one port http/TCP/80. -/
def c1Import : ServiceImport :=
  { version := "1", name := "svc1", nspace := "testns", index := "svc1.testns",
    clusterIPs := ["10.0.0.1"], svcType := .ClusterSetIP,
    ports := [{ name := "http", protocol := "TCP", port := 80 }] }

/-- The cache of claim C1's scenario: namespace `testns` exposed, the one
service import indexed under `svc1.testns`, no endpoint data, default
TTL. -/
def c1MC : MC :=
  { svcIndexF := fun idx => if idx = "svc1.testns" then [c1Import] else [],
    epIndexF := fun _ => [],
    namespaces := ["testns"],
    ttl := defaultTTL }

/-! ## Claim theorems -/

/-- Claim C1 (code bug): resolving `svc1.testns.svc.cluster.local.`
against the claim's cache does NOT produce the service record the claim
(and the repository's own `TestServeDNS` cases) expect. The parser leaves
`port`/`protocol` at `"*"`, but `matchPortAndProtocol` wildcards only the
empty string, so the only port is filtered out and the lookup returns no
records with the NoItems error (NXDOMAIN) instead of one record with host
`10.0.0.1`, port 80, TTL 5 and a nil error. -/
theorem C1_service_query_returns_noItems :
    records c1MC "svc1.testns.svc.cluster.local." "cluster.local."
      = some ([], some .noItems) ∧
    records c1MC "_http._tcp.svc1.testns.svc.cluster.local." "cluster.local."
      = some ([{ host := "10.0.0.1", port := 80, ttl := 5,
                 key := "/c/local/cluster/svc/testns/svc1" }], none) := by
  decide

/-- Claim C2 (code bug): with the endpoint watch enabled and the
endpoint-slice informer still unsynced, `HasSynced` nevertheless reports
true as soon as the service-import and namespace informers are synced —
it never consults the endpoint controller, contradicting its own comment
("calls on all controllers") and the spec's synchronization contract. -/
theorem C2_hasSynced_ignores_endpoint_controller :
    hasSynced { svcImportSynced := true, nsSynced := true,
                epEnabled := true, epSynced := false } = true ∧
    specHasSynced { svcImportSynced := true, nsSynced := true,
                    epEnabled := true, epSynced := false } = false := by
  decide

/-- Claim C3, counterexample: an update event delivering twice the same
service-import record (same resource version) does not advance the
modification clock — `detectChanges` returns before reaching the
service-import case, so the advance is not unconditional. -/
theorem C3_same_version_update_does_not_advance :
    detectChanges (some (.svcImport c1Import)) (some (.svcImport c1Import))
      = some false := by
  decide

/-- Claim C3, amended: for every service-import update pair, the
modification clock is advanced iff the old and new records carry
different resource versions; beyond that identity check, no equivalence
filtering is applied to service-import updates. -/
theorem C3_svcImport_update_advances_iff_version_differs :
    ∀ o n : ServiceImport,
      detectChanges (some (.svcImport o)) (some (.svcImport n))
        = some (o.version != n.version) := by
  intro o n
  by_cases h : o.version = n.version
  · simp [detectChanges, getResourceVersion, h]
  · simp [detectChanges, getResourceVersion, h]

/-- Claim C9: stopping a never-stopped controller succeeds (nil error,
`stopCh` closed, `shutdown` set); stopping an already-stopped controller
reports "shutdown already in progress" and leaves the state unchanged;
and after any call the controller is stopped, so only the first request
ever succeeds. -/
theorem C9_stop_only_first_succeeds :
    stop { shutdown := false, stopChClosed := false }
      = ({ shutdown := true, stopChClosed := true }, none) ∧
    (∀ s : StopState, s.shutdown = true →
      stop s = (s, some "shutdown already in progress")) ∧
    (∀ s : StopState, ((stop s).1).shutdown = true) := by
  refine ⟨rfl, ?_, ?_⟩
  · intro s h
    simp [stop, h]
  · intro s
    by_cases h : s.shutdown
    · simp [stop, h]
    · simp [stop, h]

/-- Claim C9, witness: a second stop on an already-stopped controller is
rejected without changing the state. -/
theorem C9_stop_witness :
    ({ shutdown := true, stopChClosed := true } : StopState).shutdown = true ∧
    stop { shutdown := true, stopChClosed := true }
      = ({ shutdown := true, stopChClosed := true }, some "shutdown already in progress") := by
  exact ⟨by decide, C9_stop_only_first_succeeds.2.1 _ (by decide)⟩

/-- Claim C10 (code bug): on the repository's own `TestParseRequest`
query `..webs.mynamespace.svc.inter.webs.tests.` (empty labels in the two
leftover positions), `parseRequest` panics — `stripUnderscore` indexes
`s[0]` of the empty cluster label — instead of returning a recordRequest
or the InvalidRequest error. -/
theorem C10_empty_label_panics :
    parseRequest "..webs.mynamespace.svc.inter.webs.tests." "inter.webs.tests."
      = none := by
  decide

/-- Claim C7: exactly the three sentinel errors NoItems,
NamespaceNotExposed and InvalidRequest are classified as name errors, and
for any of them `ServeDNS` delegates to the fallthrough handler when the
fallthrough zone set matches, otherwise answers SERVFAIL while the cache
is unsynced, otherwise NXDOMAIN. -/
theorem C7_name_error_priority :
    (∀ err : Option GoErr, isNameError err = true ↔
        (err = some (.lookup .noItems) ∨ err = some (.lookup .nsNotExposed) ∨
         err = some (.lookup .invalidRequest))) ∧
    (∀ (err : Option GoErr) (fallMatch hasSyncedB recordsEmpty : Bool),
        isNameError err = true →
        serveDNSRespond err fallMatch hasSyncedB recordsEmpty =
          if fallMatch then .nextHandler
          else if ¬ hasSyncedB then .backendError rcodeServerFailure
          else .backendError rcodeNameError) := by
  constructor
  · intro err
    match err with
    | none => simp [isNameError]
    | some (.lookup e) => cases e <;> simp [isNameError]
    | some (.other s) => simp [isNameError]
  · intro err fallMatch hasSyncedB recordsEmpty h
    simp [serveDNSRespond, h]

/-- Claim C7, witness: an unsynced cache turns a NoItems-classified query
into SERVFAIL rather than NXDOMAIN. -/
theorem C7_name_error_priority_witness :
    isNameError (some (.lookup .noItems)) = true ∧
    serveDNSRespond (some (.lookup .noItems)) false false true
      = .backendError rcodeServerFailure := by
  refine ⟨by decide, ?_⟩
  have h := C7_name_error_priority.2 (some (.lookup .noItems)) false false true (by decide)
  simpa using h

/-- Claim C4: in `findServices`, the running NoItems error is cleared as
soon as a port passes the port/protocol filter, not when a record is
emitted: a matching ClusterSetIP service import with a passing port but an
empty cluster-IP list yields an empty record list with a nil error
(NODATA), not NoItems (NXDOMAIN). -/
theorem C4_error_cleared_on_port_filter_pass
    (m : MC) (r : recordRequest) (zone : String) (svc : ServiceImport)
    (hns : namespaceExists m r.nspace = true)
    (hsvc : r.service ≠ "")
    (hep : r.endpoint = "")
    (hidx : m.svcIndexF (serviceKey r.service r.nspace) = [svc])
    (hmns : matchFold r.nspace svc.nspace = true)
    (hmsvc : matchFold r.service svc.name = true)
    (htype : svc.svcType = .ClusterSetIP)
    (hips : svc.clusterIPs = [])
    (hany : (svc.ports.any fun p =>
        matchPortAndProtocol r.port p.name r.protocol p.protocol) = true) :
    findServices m r zone = ([], none) := by
  simp [findServices, hns, hsvc, hidx, serviceLoop, hmns, hmsvc, htype, hep, hips,
    portsLoop_nil_ips, hany]

/-- The ClusterSetIP service import of claim C4's witness: a passing port
but no cluster IPs. -/
def c4Svc : ServiceImport :=
  { version := "1", name := "svcip0", nspace := "testns", index := "svcip0.testns",
    clusterIPs := [], svcType := .ClusterSetIP,
    ports := [{ name := "http", protocol := "tcp", port := 80 }] }

/-- The cache of claim C4's witness. -/
def c4MC : MC :=
  { svcIndexF := fun idx => if idx = "svcip0.testns" then [c4Svc] else [],
    epIndexF := fun _ => [],
    namespaces := ["testns"],
    ttl := defaultTTL }

/-- The request of claim C4's witness: an SRV-style query naming the
passing port. -/
def c4Req : recordRequest :=
  { port := "http", protocol := "tcp", service := "svcip0",
    nspace := "testns", podOrSvc := "svc" }

/-- Claim C4, witness: the hypotheses hold for the concrete cache and
request, and `findServices` returns NODATA there. -/
theorem C4_error_cleared_witness :
    namespaceExists c4MC c4Req.nspace = true ∧
    c4Req.service ≠ "" ∧
    c4Req.endpoint = "" ∧
    c4MC.svcIndexF (serviceKey c4Req.service c4Req.nspace) = [c4Svc] ∧
    matchFold c4Req.nspace c4Svc.nspace = true ∧
    matchFold c4Req.service c4Svc.name = true ∧
    c4Svc.svcType = .ClusterSetIP ∧
    c4Svc.clusterIPs = [] ∧
    (c4Svc.ports.any fun p =>
        matchPortAndProtocol c4Req.port p.name c4Req.protocol p.protocol) = true ∧
    findServices c4MC c4Req "cluster.local." = ([], none) := by
  refine ⟨by decide, by decide, by decide, by decide, by decide, by decide,
    by decide, by decide, by decide, ?_⟩
  exact C4_error_cleared_on_port_filter_pass c4MC c4Req "cluster.local." c4Svc
    (by decide) (by decide) (by decide) (by decide) (by decide) (by decide)
    (by decide) (by decide) (by decide)

/-- Claim C5: for endpoint update pairs with different resource versions,
the modification clock is advanced iff the records are not equivalent in
the claim's sense (identical cluster id and subset count, positionwise
identical address IP/hostname pairs and port name/number/protocol
triples). -/
theorem C5_endpoint_update_advances_iff_not_equivalent
    (o n : Endpoints) (h : o.version ≠ n.version) :
    detectChanges (some (.endpoints o)) (some (.endpoints n))
      = some (!claimEndpointsEquiv o n) := by
  simp [detectChanges, getResourceVersion, h, endpointsEquivalent_eq_claim]

/-- The old endpoint record of claim C5's witness. -/
def c5Old : Endpoints :=
  { version := "1", name := "hdls1-slice1", nspace := "testns",
    index := "hdls1.testns", clusterId := "clusterid",
    subsets := [{ addresses := [{ ip := "172.0.0.2", hostname := "", nodeName := "node-a" }],
                  ports := [{ name := "http", port := 80, protocol := "tcp" }] }] }

/-- The new endpoint record of claim C5's witness: a new resource version
and a changed node name, everything the equivalence compares unchanged. -/
def c5New : Endpoints :=
  { version := "2", name := "hdls1-slice1", nspace := "testns",
    index := "hdls1.testns", clusterId := "clusterid",
    subsets := [{ addresses := [{ ip := "172.0.0.2", hostname := "", nodeName := "node-b" }],
                  ports := [{ name := "http", port := 80, protocol := "tcp" }] }] }

/-- Claim C5, witness: the two concrete records differ in version (and
node name) only, so the update does not advance the clock. -/
theorem C5_endpoint_update_witness :
    c5Old.version ≠ c5New.version ∧
    detectChanges (some (.endpoints c5Old)) (some (.endpoints c5New))
      = some (!claimEndpointsEquiv c5Old c5New) := by
  exact ⟨by decide,
    C5_endpoint_update_advances_iff_not_equivalent c5Old c5New (by decide)⟩

/-- Claim C6, counterexample: for the IP `1.2:3` (containing both `.` and
`:`) with no explicit hostname, the code replaces only the dots, so the
computed hostname differs from the claim's "every `.` or `:` replaced"
value. -/
theorem C6_hostname_counterexample :
    endpointHostname { ip := "1.2:3", hostname := "", nodeName := "" }
      ≠ claimedEndpointHostname { ip := "1.2:3", hostname := "", nodeName := "" } := by
  decide

/-- Claim C6, amended: the computed endpoint hostname is the explicit
hostname when non-empty; otherwise, when the IP contains both `.` and
`:`, only the dots are replaced by dashes; when it contains exactly one of
the two, the claim's full replacement holds; when it contains neither,
the result is the empty string. -/
theorem C6_endpoint_hostname_amended :
    ∀ addr : EndpointAddress,
      endpointHostname addr =
        if addr.hostname ≠ "" then addr.hostname
        else if strContainsChar addr.ip '.' && strContainsChar addr.ip ':' then
          replaceAllChar addr.ip '.' '-'
        else if strContainsChar addr.ip '.' || strContainsChar addr.ip ':' then
          claimedEndpointHostname addr
        else "" := by
  intro addr
  by_cases hh : addr.hostname = ""
  · by_cases hd : strContainsChar addr.ip '.' = true
    · by_cases hc : strContainsChar addr.ip ':' = true
      · simp [endpointHostname, hh, hd, hc]
      · have hmap : (addr.ip.data.map (fun c => if c = '.' then '-' else c))
            = (addr.ip.data.map (fun c => if c = '.' ∨ c = ':' then '-' else c)) := by
          refine List.map_congr_left (fun c hmem => ?_)
          have hne : c ≠ ':' :=
            not_mem_of_contains_false (by simpa [strContainsChar] using hc) c hmem
          by_cases hcd : c = '.' <;> simp [hcd, hne]
        simp [endpointHostname, claimedEndpointHostname, replaceAllChar, hh, hd, hc, hmap]
    · by_cases hc : strContainsChar addr.ip ':' = true
      · have hmap : (addr.ip.data.map (fun c => if c = ':' then '-' else c))
            = (addr.ip.data.map (fun c => if c = '.' ∨ c = ':' then '-' else c)) := by
          refine List.map_congr_left (fun c hmem => ?_)
          have hne : c ≠ '.' :=
            not_mem_of_contains_false (by simpa [strContainsChar] using hd) c hmem
          by_cases hcd : c = ':' <;> simp [hcd, hne]
        simp [endpointHostname, claimedEndpointHostname, replaceAllChar, hh, hd, hc, hmap]
      · simp [endpointHostname, hh, hd, hc]
  · simp [endpointHostname, hh]

/-- Claim C8: every name whose labels after zone trimming are
`_<port>._<protocol>.<service>.<namespace>.<svc|pod>` parses successfully
into that port and protocol with the leading underscores stripped, with
endpoint and cluster left empty. -/
theorem C8_srv_shape_parses
    (name zone base p pr s n scope : String)
    (h1 : trimZone name zone = some base)
    (h2 : splitDomainName base = ["_" ++ p, "_" ++ pr, s, n, scope])
    (h3 : scope = Svc ∨ scope = Pod) :
    parseRequest name zone =
      some ({ port := p, protocol := pr, cluster := "", endpoint := "",
              service := s, nspace := n, podOrSvc := scope }, none) := by
  unfold parseRequest
  rw [h1, Option.getD_some, if_neg (splitDomainName_ne_five base _ _ _ _ _ h2), h2]
  rcases h3 with rfl | rfl <;>
    simp [parseSegs, Svc, Pod, strHasPfx_underscore, stripUnderscore_underscore]

/-- Claim C8, witness: the concrete SRV-style name
`_http._tcp.svc1.testns.svc.cluster.local.` satisfies the shape
hypotheses and parses to port `http`, protocol `tcp`. -/
theorem C8_srv_shape_witness :
    trimZone "_http._tcp.svc1.testns.svc.cluster.local." "cluster.local."
      = some "_http._tcp.svc1.testns.svc" ∧
    splitDomainName "_http._tcp.svc1.testns.svc"
      = ["_" ++ "http", "_" ++ "tcp", "svc1", "testns", "svc"] ∧
    ("svc" = Svc ∨ "svc" = Pod) ∧
    parseRequest "_http._tcp.svc1.testns.svc.cluster.local." "cluster.local."
      = some ({ port := "http", protocol := "tcp", cluster := "", endpoint := "",
                service := "svc1", nspace := "testns", podOrSvc := "svc" }, none) := by
  refine ⟨by decide, by decide, by decide, ?_⟩
  exact C8_srv_shape_parses "_http._tcp.svc1.testns.svc.cluster.local." "cluster.local."
    "_http._tcp.svc1.testns.svc" "http" "tcp" "svc1" "testns" "svc"
    (by decide) (by decide) (by decide)

end Multicluster
